import Mathlib

/-!
Verification development for the `dbbs_models` granule-cell morphology
builder (`src/dbbs_models/granule_cell_models.py`) and its static
parameter tables.

The morphology builder (`GranuleBase.builder`) is embedded shallowly:
each Python build method becomes a Lean function from a `Model` state to
a `Model` state.  Sections created by `p.Section()` are registered in a
flat list `Model.sections` in creation order; a section refers to its
parent by its creation index, so `connect(parent, end)` becomes setting
the `parent : Option (ℕ × ℚ)` field.  Real-valued coordinates are
rationals (every constant in the source is an exact decimal literal).
-/

/-- A 3-D point.  The source passes 3-vectors (numpy arrays / lists). -/
structure Vec3 where
  x : ℚ
  y : ℚ
  z : ℚ
deriving DecidableEq

/-- Elementwise vector addition, `position + [dx, dy, dz]` in the source. -/
def Vec3.add3 (v : Vec3) (dx dy dz : ℚ) : Vec3 :=
  Vec3.mk (v.x + dx) (v.y + dy) (v.z + dz)

/-- One compartment (`p.Section()`), with the attributes the builder sets.
Fields, in order: `length`, `diam`, `nseg` (`none` when `set_segments`
was never called, so the external default applies), `pts3d` (the points
passed to `add_3d`), `labels` (`none` when never assigned), `secName`
(the `name=` argument of `p.Section`, when given), `parent`
(creation index of the parent section and the attachment end passed to
`connect`; `none` for an unconnected section). -/
structure Sec where
  length : ℚ
  diam : ℚ
  nseg : Option ℤ
  pts3d : List Vec3
  labels : Option (List String)
  secName : Option String
  parent : Option (ℕ × ℚ)
deriving DecidableEq

/-- The mutable model object threaded through the build methods.
Fields, in order: `position`; the four constants set at the top of
`GranuleBase.builder` (`fiber_section_length`, `fiber_segment_length`,
`ascending_axon_length`, `parallel_fiber_length`); the registry
`sections` of all sections in creation order; then the attributes the
build methods assign: `soma`, `dend`, `axon` (lists of creation
indices), `axon_hillock`, `axon_initial_segment`, `ascending_axon`
(creation indices), `y_pf`, and `parallel_fiber` (creation indices). -/
structure Model where
  position : Vec3
  fiber_section_length : ℚ
  fiber_segment_length : ℚ
  ascending_axon_length : ℚ
  parallel_fiber_length : ℚ
  sections : List Sec
  soma : List ℕ
  dend : List ℕ
  axon : List ℕ
  axon_hillock : ℕ
  axon_initial_segment : ℕ
  ascending_axon : ℕ
  y_pf : ℚ
  parallel_fiber : List ℕ
deriving DecidableEq

/-- Python `int()` applied to a rational: truncation toward zero. -/
def pyInt (q : ℚ) : ℤ := if 0 ≤ q then ⌊q⌋ else ⌈q⌉

/-- The state at the start of `GranuleBase.builder`: the placement
position is given, the four length constants are assigned
(source lines 9-12), and nothing has been built yet. -/
def initModel (position : Vec3) : Model :=
  Model.mk position 20 7 126 2000 [] [] [] [] 0 0 0 0 []

/-- Method `GranuleBase.build_soma` (source lines 21-25). -/
def build_soma (m : Model) : Model :=
  let s : Sec := Sec.mk 5.62232 5.8 (some 1)
    [m.position, m.position.add3 0 5.62232 0] none none none
  Model.mk m.position m.fiber_section_length m.fiber_segment_length
    m.ascending_axon_length m.parallel_fiber_length
    (m.sections ++ [s]) [m.sections.length] m.dend m.axon
    m.axon_hillock m.axon_initial_segment m.ascending_axon m.y_pf
    m.parallel_fiber

/-- Method `GranuleBase.build_dendrites` (source lines 27-42).  Each dendrite's
origin is `position` shifted by `(i - 1.5) * 2` in x; the ten points
lower y by `L * j / 10` for `j = 0..9`; `dendrite.connect(self.soma[0], 0)`. -/
def build_dendrites (m : Model) : Model :=
  let base := m.sections.length
  let ds := (List.range 4).map (fun (i : ℕ) =>
    let dx : ℚ := ((i : ℚ) - 1.5) * 2
    Sec.mk 15 0.75 none
      ((List.range 10).map (fun (j : ℕ) =>
        Vec3.mk (m.position.x + dx) (m.position.y - 15 * (j : ℚ) / 10)
          m.position.z))
      none none (some (m.soma.getD 0 0, 0)))
  Model.mk m.position m.fiber_section_length m.fiber_segment_length
    m.ascending_axon_length m.parallel_fiber_length
    (m.sections ++ ds) m.soma ((List.range 4).map (fun i => base + i)) m.axon
    m.axon_hillock m.axon_initial_segment m.ascending_axon m.y_pf
    m.parallel_fiber

/-- Method `GranuleBase.build_hillock` (source lines 44-61): the axon hillock
connects to `soma[0]` at end 0, the axon initial segment connects to the
hillock at end 1, and `self.axon = [hillock, ais]`. -/
def build_hillock (m : Model) : Model :=
  let hid := m.sections.length
  let hillock : Sec := Sec.mk 1 1.5 (some 1)
    [m.position.add3 0 5.62232 0, m.position.add3 0 6.62232 0]
    (some ["axon_hillock"]) none (some (m.soma.getD 0 0, 0))
  let ais : Sec := Sec.mk 10 0.7 (some 1)
    [m.position.add3 0 6.62232 0, m.position.add3 0 16.62232 0]
    (some ["axon_initial_segment"]) (some "axon_initial_segment")
    (some (hid, 1))
  Model.mk m.position m.fiber_section_length m.fiber_segment_length
    m.ascending_axon_length m.parallel_fiber_length
    (m.sections ++ [hillock, ais]) m.soma m.dend [hid, hid + 1]
    hid (hid + 1) m.ascending_axon m.y_pf
    m.parallel_fiber

/-- Method `GranuleBase.build_ascending_axon` (source lines 63-90):
`n = int(ascending_axon_length / seg_length)` segments, length 126,
diameter 0.3, connected to the initial segment at the default end (1);
eleven points at the listed fractions of the length, starting at the
fixed y offset 16.62232; finally `y_pf = y + seg_length * n`. -/
def build_ascending_axon (m : Model) : Model :=
  let seg_length := m.fiber_segment_length
  let n : ℤ := pyInt (m.ascending_axon_length / seg_length)
  let y : ℚ := 16.62232
  let fraction : List ℚ := [0.0, 0.1, 0.2, 0.3, 0.4, 0.5, 0.6, 0.7, 0.8, 0.9, 1.0]
  let aa : Sec := Sec.mk m.ascending_axon_length 0.3 (some n)
    (fraction.map (fun f =>
      m.position.add3 0 (y + f * m.ascending_axon_length) 0))
    (some ["ascending_axon"]) none (some (m.axon_initial_segment, 1))
  Model.mk m.position m.fiber_section_length m.fiber_segment_length
    m.ascending_axon_length m.parallel_fiber_length
    (m.sections ++ [aa]) m.soma m.dend (m.axon ++ [m.sections.length])
    m.axon_hillock m.axon_initial_segment m.sections.length
    (y + seg_length * (n : ℚ))
    m.parallel_fiber

/-- Method `GranuleBase.build_parallel_fiber` (source lines 92-113):
`n = int(parallel_fiber_length / section_length)` sections are created
first (so their creation indices are consecutive from `base`), each gets
length `section_length` and diameter 0.3, two points at y = `y_pf` with
z offset `center + sign * z` and `center + sign * (z + section_length)`
added to the position, where `sign = 1 - (id % 2) * 2` and
`z = floor(id / 2) * section_length`; sections with `id < 2` connect to
the ascending axon (default end 1), the others to
`parallel_fiber[id - 2]`.  (The trailing `z += section_length` in the
loop body is dead: `z` is recomputed at the top of each iteration.)
Finally `self.axon.extend(self.parallel_fiber)`. -/
def build_parallel_fiber (m : Model) : Model :=
  let section_length := m.fiber_section_length
  let n : ℕ := (pyInt (m.parallel_fiber_length / section_length)).toNat
  let y := m.y_pf
  let center := m.position.z
  let base := m.sections.length
  let pf := (List.range n).map (fun id =>
    let sign : ℚ := 1 - ((id % 2 : ℕ) : ℚ) * 2
    let z : ℚ := ((id / 2 : ℕ) : ℚ) * section_length
    Sec.mk section_length 0.3 none
      [m.position.add3 0 y (center + sign * z),
       m.position.add3 0 y (center + sign * (z + section_length))]
      (some ["parallel_fiber"])
      (some ("parellel_fiber_" ++ toString id))
      (some (if id < 2 then (m.ascending_axon, (1 : ℚ))
             else (base + (id - 2), 1))))
  let pfIds := (List.range n).map (fun i => base + i)
  Model.mk m.position m.fiber_section_length m.fiber_segment_length
    m.ascending_axon_length m.parallel_fiber_length
    (m.sections ++ pf) m.soma m.dend (m.axon ++ pfIds)
    m.axon_hillock m.axon_initial_segment m.ascending_axon m.y_pf
    pfIds

/-- Method `GranuleBase.builder` (source lines 8-17): set the four length
constants, then build soma, dendrites, hillock + initial segment,
ascending axon and parallel fiber, in that order. -/
def builder (position : Vec3) : Model :=
  build_parallel_fiber (build_ascending_axon (build_hillock
    (build_dendrites (build_soma (initModel position)))))

/-- A placeholder section, used only as the default of list lookups. -/
def secDefault : Sec := Sec.mk 0 0 none [] none none none

/-- The section with creation index `i` of model `m`. -/
def secAt (m : Model) (i : ℕ) : Sec := m.sections.getD i secDefault

/-- The `j`-th 3-D point of section `s` (defaulting to the origin). -/
def ptAt (s : Sec) (j : ℕ) : Vec3 := s.pts3d.getD j (Vec3.mk 0 0 0)

/-! ### Evaluated form of the builder

`Rat.inv` is irreducible, so the two `int(... / ...)` segment counts do
not reduce definitionally.  `builderE` is the builder with those two
divisions evaluated (`126 / 7 = 18`, `2000 / 20 = 100`,
`y_pf = 16.62232 + 7 * 18 = 142.62232`) and with the creation indices
written as literals; `builder_eq` proves it equal to `builder`. -/

/-- The soma section as built (creation index 0). -/
def somaSec (P : Vec3) : Sec :=
  Sec.mk 5.62232 5.8 (some 1) [P, P.add3 0 5.62232 0] none none none

/-- Dendrite `i` as built (creation indices 1-4). -/
def dendSec (P : Vec3) (i : ℕ) : Sec :=
  Sec.mk 15 0.75 none
    ((List.range 10).map (fun (j : ℕ) =>
      Vec3.mk (P.x + ((i : ℚ) - 1.5) * 2) (P.y - 15 * (j : ℚ) / 10) P.z))
    none none (some (0, 0))

/-- The axon hillock as built (creation index 5). -/
def hillockSec (P : Vec3) : Sec :=
  Sec.mk 1 1.5 (some 1) [P.add3 0 5.62232 0, P.add3 0 6.62232 0]
    (some ["axon_hillock"]) none (some (0, 0))

/-- The axon initial segment as built (creation index 6). -/
def aisSec (P : Vec3) : Sec :=
  Sec.mk 10 0.7 (some 1) [P.add3 0 6.62232 0, P.add3 0 16.62232 0]
    (some ["axon_initial_segment"]) (some "axon_initial_segment")
    (some (5, 1))

/-- The ascending axon as built (creation index 7). -/
def aaSec (P : Vec3) : Sec :=
  Sec.mk 126 0.3 (some 18)
    (([0.0, 0.1, 0.2, 0.3, 0.4, 0.5, 0.6, 0.7, 0.8, 0.9, 1.0] : List ℚ).map
      (fun f => P.add3 0 (16.62232 + f * 126) 0))
    (some ["ascending_axon"]) none (some (6, 1))

/-- Parallel-fiber section `id` as built (creation indices 8-107). -/
def pfSec (P : Vec3) (id : ℕ) : Sec :=
  Sec.mk 20 0.3 none
    [P.add3 0 142.62232 (P.z + (1 - ((id % 2 : ℕ) : ℚ) * 2) * (((id / 2 : ℕ) : ℚ) * 20)),
     P.add3 0 142.62232 (P.z + (1 - ((id % 2 : ℕ) : ℚ) * 2) * (((id / 2 : ℕ) : ℚ) * 20 + 20))]
    (some ["parallel_fiber"]) (some ("parellel_fiber_" ++ toString id))
    (some (if id < 2 then (7, (1 : ℚ)) else (8 + (id - 2), 1)))

/-- The fully built model, with all section counts evaluated. -/
def builderE (P : Vec3) : Model :=
  Model.mk P 20 7 126 2000
    (somaSec P :: ((List.range 4).map (fun i => dendSec P i) ++
      (hillockSec P :: aisSec P :: aaSec P :: (List.range 100).map (fun id => pfSec P id))))
    [0] ((List.range 4).map (fun i => 1 + i))
    (5 :: 6 :: 7 :: (List.range 100).map (fun i => 8 + i))
    5 6 7 142.62232
    ((List.range 100).map (fun i => 8 + i))

theorem builder_eq (P : Vec3) : builder P = builderE P := by
  have e1 : pyInt ((126 : ℚ) / 7) = 18 := by
    rw [show ((126 : ℚ) / 7) = ((18 : ℤ) : ℚ) by norm_num]
    rw [pyInt, if_pos (by norm_num), Int.floor_intCast]
  have e2 : (pyInt ((2000 : ℚ) / 20)).toNat = 100 := by
    rw [show ((2000 : ℚ) / 20) = ((100 : ℤ) : ℚ) by norm_num]
    rw [pyInt, if_pos (by norm_num), Int.floor_intCast]
    rfl
  have e3 : (16.62232 : ℚ) + 7 * ((18 : ℤ) : ℚ) = 142.62232 := by norm_num
  simp only [builder, build_parallel_fiber, build_ascending_axon,
    build_hillock, build_dendrites, build_soma, initModel, builderE,
    somaSec, dendSec, hillockSec, aisSec, aaSec, pfSec, e1, e2, e3,
    List.nil_append, List.cons_append, List.append_assoc,
    List.singleton_append, List.length_nil, List.length_cons,
    List.length_append, List.length_map, List.length_range,
    List.getD_cons_zero, Nat.zero_add, Nat.add_zero]

/-! ### Indexing helpers -/

theorem getD_map_range {α : Type} (f : ℕ → α) (d : α) {n i : ℕ} (h : i < n) :
    ((List.range n).map f).getD i d = f i := by
  simp [List.getD_eq_getElem?_getD, List.getElem?_range h]

/-- The creation index of dendrite `i` is `1 + i`. -/
theorem dend_idx (P : Vec3) {i : ℕ} (h : i < 4) :
    (builder P).dend.getD i 0 = 1 + i := by
  rw [builder_eq]
  exact getD_map_range _ _ h

/-- The creation index of parallel-fiber section `id` is `8 + id`. -/
theorem pf_idx (P : Vec3) {id : ℕ} (h : id < 100) :
    (builder P).parallel_fiber.getD id 0 = 8 + id := by
  rw [builder_eq]
  exact getD_map_range _ _ h

/-- The section stored at the creation index of dendrite `i`. -/
theorem dend_secAt (P : Vec3) {i : ℕ} (h : i < 4) :
    secAt (builder P) (1 + i) = dendSec P i := by
  rw [builder_eq]
  show (somaSec P :: ((List.range 4).map (fun k => dendSec P k) ++ _)).getD (1 + i) secDefault = _
  rw [Nat.add_comm 1 i]
  simp only [List.getD_eq_getElem?_getD, List.getElem?_cons_succ,
    List.getElem?_append, List.length_map, List.length_range]
  rw [if_pos h]
  simp [List.getElem?_map, List.getElem?_range h]

/-- The section stored at the creation index of parallel-fiber `id`. -/
theorem pf_secAt (P : Vec3) {id : ℕ} (h : id < 100) :
    secAt (builder P) (8 + id) = pfSec P id := by
  rw [builder_eq]
  show (somaSec P :: ((List.range 4).map (fun k => dendSec P k) ++ _)).getD (8 + id) secDefault = _
  rw [Nat.add_comm 8 id]
  simp only [List.getD_eq_getElem?_getD, List.getElem?_cons_succ,
    List.getElem?_append, List.length_map, List.length_range]
  rw [if_neg (by omega)]
  have hidx : id + 7 - 4 = id + 1 + 1 + 1 := by omega
  rw [hidx]
  simp only [List.getElem?_cons_succ]
  simp [List.getElem?_map, List.getElem?_range h]

/-! ### Claims about the morphology builder -/

/-- C6: for every placement position `P`, the soma is a single compartment
(`soma = [index 0]`) with length 5.62232, diameter 5.8, one segment and
exactly the two 3-D points `P` and `P + (0, 5.62232, 0)`; in particular
its proximal point is exactly `P`. -/
theorem soma_spec (P : Vec3) :
    (builder P).soma = [0] ∧
    (secAt (builder P) 0).length = 5.62232 ∧
    (secAt (builder P) 0).diam = 5.8 ∧
    (secAt (builder P) 0).nseg = some 1 ∧
    (secAt (builder P) 0).pts3d = [P, P.add3 0 5.62232 0] := by
  rw [builder_eq]
  exact ⟨rfl, rfl, rfl, rfl, rfl⟩

/-- C8: the axon hillock has length 1, diameter 1.5, one segment, label
"axon_hillock" and connects to the soma at end 0; the axon initial
segment has length 10, diameter 0.7, one segment, label
"axon_initial_segment" and connects to the hillock at end 1. -/
theorem hillock_ais_spec (P : Vec3) :
    (secAt (builder P) (builder P).axon_hillock).length = 1 ∧
    (secAt (builder P) (builder P).axon_hillock).diam = 1.5 ∧
    (secAt (builder P) (builder P).axon_hillock).nseg = some 1 ∧
    (secAt (builder P) (builder P).axon_hillock).labels = some ["axon_hillock"] ∧
    (secAt (builder P) (builder P).axon_hillock).parent =
      some ((builder P).soma.getD 0 0, 0) ∧
    (secAt (builder P) (builder P).axon_initial_segment).length = 10 ∧
    (secAt (builder P) (builder P).axon_initial_segment).diam = 0.7 ∧
    (secAt (builder P) (builder P).axon_initial_segment).nseg = some 1 ∧
    (secAt (builder P) (builder P).axon_initial_segment).labels =
      some ["axon_initial_segment"] ∧
    (secAt (builder P) (builder P).axon_initial_segment).parent =
      some ((builder P).axon_hillock, 1) := by
  rw [builder_eq]
  exact ⟨rfl, rfl, rfl, rfl, rfl, rfl, rfl, rfl, rfl, rfl⟩

/-- C3: the ascending axon has `int(126 / 7) = 18` segments, length 126,
diameter 0.3, exactly 11 3-D points at the fractions 0.0-1.0 inclusive
of its length added to the fixed y offset 16.62232 above the position,
and the builder records `y_pf = 16.62232 + 7 * 18 = 142.62232`. -/
theorem ascending_axon_spec (P : Vec3) :
    (secAt (builder P) (builder P).ascending_axon).nseg = some 18 ∧
    (secAt (builder P) (builder P).ascending_axon).length = 126 ∧
    (secAt (builder P) (builder P).ascending_axon).diam = 0.3 ∧
    (secAt (builder P) (builder P).ascending_axon).pts3d =
      ([0.0, 0.1, 0.2, 0.3, 0.4, 0.5, 0.6, 0.7, 0.8, 0.9, 1.0] : List ℚ).map
        (fun f => P.add3 0 (16.62232 + f * 126) 0) ∧
    (secAt (builder P) (builder P).ascending_axon).pts3d.length = 11 ∧
    (builder P).y_pf = 16.62232 + 7 * 18 := by
  rw [builder_eq]
  refine ⟨rfl, rfl, rfl, rfl, rfl, ?_⟩
  norm_num [builderE]

/-- C10: after the builder completes, the axon list is exactly the
hillock, the initial segment, the ascending axon, then the 100
parallel-fiber compartments in index order; it has 103 entries. -/
theorem axon_order_spec (P : Vec3) :
    (builder P).axon = (builder P).axon_hillock :: (builder P).axon_initial_segment ::
      (builder P).ascending_axon :: (builder P).parallel_fiber ∧
    (builder P).axon.length = 103 ∧
    (builder P).parallel_fiber.length = 100 ∧
    (builder P).parallel_fiber = (List.range 100).map (fun i => 8 + i) := by
  rw [builder_eq]
  exact ⟨rfl, rfl, rfl, rfl⟩

/-- C5: the builder is deterministic: two invocations on equal placement
positions produce identical models (same compartments, dimensions,
points, labels and connections). -/
theorem builder_deterministic (P Q : Vec3) (h : P = Q) :
    builder P = builder Q := by
  rw [h]

/-- Witness for C5 at the concrete position (1, 2, 3). -/
theorem builder_deterministic_witness :
    Vec3.mk 1 2 3 = Vec3.mk 1 2 3 ∧
      builder (Vec3.mk 1 2 3) = builder (Vec3.mk 1 2 3) :=
  ⟨rfl, builder_deterministic (Vec3.mk 1 2 3) (Vec3.mk 1 2 3) rfl⟩

/-- C7: the builder produces exactly 4 dendrites, each of length 15 and
diameter 0.75 with exactly 10 3-D points; dendrite `i` is offset along x
by `(i - 1.5) * 2`, its points descend along y from the offset origin,
and it connects to the soma at end 0. -/
theorem dendrites_spec (P : Vec3) (i : ℕ) (h : i < 4) :
    (builder P).dend.length = 4 ∧
    (secAt (builder P) ((builder P).dend.getD i 0)).length = 15 ∧
    (secAt (builder P) ((builder P).dend.getD i 0)).diam = 0.75 ∧
    (secAt (builder P) ((builder P).dend.getD i 0)).pts3d.length = 10 ∧
    (∀ j : ℕ, j < 10 →
      ptAt (secAt (builder P) ((builder P).dend.getD i 0)) j =
        Vec3.mk (P.x + ((i : ℚ) - 1.5) * 2) (P.y - 15 * (j : ℚ) / 10) P.z) ∧
    (∀ j : ℕ, j + 1 < 10 →
      (ptAt (secAt (builder P) ((builder P).dend.getD i 0)) (j + 1)).y <
        (ptAt (secAt (builder P) ((builder P).dend.getD i 0)) j).y) ∧
    (secAt (builder P) ((builder P).dend.getD i 0)).parent =
      some ((builder P).soma.getD 0 0, 0) := by
  have hlen : (builder P).dend.length = 4 := by rw [builder_eq]; rfl
  have hsec : secAt (builder P) ((builder P).dend.getD i 0) = dendSec P i := by
    rw [dend_idx P h, dend_secAt P h]
  have hpt : ∀ j : ℕ, j < 10 →
      ptAt (secAt (builder P) ((builder P).dend.getD i 0)) j =
        Vec3.mk (P.x + ((i : ℚ) - 1.5) * 2) (P.y - 15 * (j : ℚ) / 10) P.z := by
    intro j hj
    rw [hsec]
    exact getD_map_range _ _ hj
  refine ⟨hlen, by rw [hsec]; rfl, by rw [hsec]; rfl, by rw [hsec]; rfl, hpt, ?_, ?_⟩
  · intro j hj
    rw [hpt (j + 1) hj, hpt j (by omega)]
    have hc : ((j : ℚ)) < ((j : ℚ)) + 1 := by linarith
    push_cast
    linarith
  · rw [hsec, builder_eq]
    rfl

/-- Witness for C7 at position (1, 2, 3), dendrite 2, point 3. -/
theorem dendrites_spec_witness :
    (2 : ℕ) < 4 ∧ (3 : ℕ) < 10 ∧
      ptAt (secAt (builder (Vec3.mk 1 2 3))
          ((builder (Vec3.mk 1 2 3)).dend.getD 2 0)) 3 =
        Vec3.mk ((Vec3.mk 1 2 3).x + ((2 : ℚ) - 1.5) * 2)
          ((Vec3.mk 1 2 3).y - 15 * (3 : ℚ) / 10) (Vec3.mk 1 2 3).z :=
  ⟨by norm_num, by norm_num,
    (dendrites_spec (Vec3.mk 1 2 3) 2 (by norm_num)).2.2.2.2.1 3 (by norm_num)⟩

/-- C2: the parallel-fiber chain has `int(2000 / 20) = 100` compartments,
each of length 20 and diameter 0.3; compartment `id < 2` connects to the
ascending axon (end 1) and compartment `id ≥ 2` connects to
parallel-fiber compartment `id - 2` (end 1), giving two chains rooted at
the ascending axon. -/
theorem parallel_fiber_chain_spec (P : Vec3) (id : ℕ) (h : id < 100) :
    (builder P).parallel_fiber.length = 100 ∧
    (secAt (builder P) ((builder P).parallel_fiber.getD id 0)).length = 20 ∧
    (secAt (builder P) ((builder P).parallel_fiber.getD id 0)).diam = 0.3 ∧
    (secAt (builder P) ((builder P).parallel_fiber.getD id 0)).labels =
      some ["parallel_fiber"] ∧
    (secAt (builder P) ((builder P).parallel_fiber.getD id 0)).parent =
      some (if id < 2 then ((builder P).ascending_axon, (1 : ℚ))
            else ((builder P).parallel_fiber.getD (id - 2) 0, 1)) := by
  have hsec : secAt (builder P) ((builder P).parallel_fiber.getD id 0) = pfSec P id := by
    rw [pf_idx P h, pf_secAt P h]
  refine ⟨by rw [builder_eq]; rfl, by rw [hsec]; rfl, by rw [hsec]; rfl, by rw [hsec]; rfl, ?_⟩
  rw [hsec]
  by_cases h2 : id < 2
  · rw [if_pos h2]
    rw [show (builder P).ascending_axon = 7 by rw [builder_eq]; rfl]
    simp [pfSec, h2]
  · rw [if_neg h2]
    rw [pf_idx P (show id - 2 < 100 by omega)]
    simp [pfSec, h2]

/-- Witness for C2 at position (1, 2, 3) and compartment 5. -/
theorem parallel_fiber_chain_spec_witness :
    (5 : ℕ) < 100 ∧
      (secAt (builder (Vec3.mk 1 2 3))
          ((builder (Vec3.mk 1 2 3)).parallel_fiber.getD 5 0)).parent =
        some (if (5 : ℕ) < 2 then ((builder (Vec3.mk 1 2 3)).ascending_axon, (1 : ℚ))
              else ((builder (Vec3.mk 1 2 3)).parallel_fiber.getD (5 - 2) 0, 1)) :=
  ⟨by norm_num, (parallel_fiber_chain_spec (Vec3.mk 1 2 3) 5 (by norm_num)).2.2.2.2⟩

/-- C1 counterexample: at position P = (0, 0, 1) and parallel-fiber
compartment 0 (sign = 1, z = 0), the first 3-D point's Z coordinate is
2 = 2 * P.z + sign * z, not P.z + sign * z = 1 as the claim states: the
code adds `center + sign * z` (with `center = P.z`) on top of the
position's own Z component. -/
theorem pf_z_offset_counterexample :
    (ptAt (secAt (builder (Vec3.mk 0 0 1))
        ((builder (Vec3.mk 0 0 1)).parallel_fiber.getD 0 0)) 0).z ≠
      (Vec3.mk 0 0 1).z +
        (1 - ((0 % 2 : ℕ) : ℚ) * 2) * (((0 / 2 : ℕ) : ℚ) * 20) := by
  rw [pf_idx (Vec3.mk 0 0 1) (by norm_num), pf_secAt (Vec3.mk 0 0 1) (by norm_num)]
  show (1 : ℚ) + ((1 : ℚ) + (1 - ((0 % 2 : ℕ) : ℚ) * 2) * (((0 / 2 : ℕ) : ℚ) * 20)) ≠ _
  norm_num

/-- C1 (amended): for every position `P` and `id < 100`, with
`sign = 1 - (id % 2) * 2` and `z = floor(id / 2) * 20`, the two 3-D
points of parallel-fiber compartment `id` lie at constant
Y = `P.y + y_pf`, and their Z coordinates are `P.z + (P.z + sign * z)`
and `P.z + (P.z + sign * (z + 20))`: the offsets `sign * z` and
`sign * (z + 20)` are relative to twice the center Z coordinate
(`center = P.z` is added to the position's own Z component), so even ids
extend in +Z and odd ids in -Z relative to `2 * P.z`. -/
theorem pf_points_spec (P : Vec3) (id : ℕ) (h : id < 100) :
    (ptAt (secAt (builder P) ((builder P).parallel_fiber.getD id 0)) 0).y =
      P.y + (builder P).y_pf ∧
    (ptAt (secAt (builder P) ((builder P).parallel_fiber.getD id 0)) 1).y =
      P.y + (builder P).y_pf ∧
    (ptAt (secAt (builder P) ((builder P).parallel_fiber.getD id 0)) 0).z =
      P.z + (P.z + (1 - ((id % 2 : ℕ) : ℚ) * 2) * (((id / 2 : ℕ) : ℚ) * 20)) ∧
    (ptAt (secAt (builder P) ((builder P).parallel_fiber.getD id 0)) 1).z =
      P.z + (P.z + (1 - ((id % 2 : ℕ) : ℚ) * 2) * (((id / 2 : ℕ) : ℚ) * 20 + 20)) ∧
    (secAt (builder P) ((builder P).parallel_fiber.getD id 0)).pts3d.length = 2 := by
  rw [pf_idx P h, pf_secAt P h, builder_eq]
  exact ⟨rfl, rfl, rfl, rfl, rfl⟩

/-- Witness for the amended C1 at position (1, 2, 3) and compartment 5
(odd, so sign = -1, z = 40). -/
theorem pf_points_spec_witness :
    (5 : ℕ) < 100 ∧
      (ptAt (secAt (builder (Vec3.mk 1 2 3))
          ((builder (Vec3.mk 1 2 3)).parallel_fiber.getD 5 0)) 0).z =
        (Vec3.mk 1 2 3).z + ((Vec3.mk 1 2 3).z +
          (1 - ((5 % 2 : ℕ) : ℚ) * 2) * (((5 / 2 : ℕ) : ℚ) * 20)) :=
  ⟨by norm_num, (pf_points_spec (Vec3.mk 1 2 3) 5 (by norm_num)).2.2.1⟩

/-- C4: the built structure is a tree rooted at the soma: there are 108
sections, section 0 (the soma) has no parent, and every other section's
parent was created strictly earlier. -/
theorem tree_invariant (P : Vec3) :
    (builder P).sections.length = 108 ∧
    (secAt (builder P) 0).parent = none ∧
    (∀ i : ℕ, 0 < i → i < 108 →
      ∃ j e, (secAt (builder P) i).parent = some (j, e) ∧ j < i) := by
  refine ⟨by rw [builder_eq]; rfl, by rw [builder_eq]; rfl, ?_⟩
  intro i h0 h108
  by_cases hi : i < 8
  · interval_cases i
    · exact ⟨0, 0, by rw [builder_eq]; rfl, by norm_num⟩
    · exact ⟨0, 0, by rw [builder_eq]; rfl, by norm_num⟩
    · exact ⟨0, 0, by rw [builder_eq]; rfl, by norm_num⟩
    · exact ⟨0, 0, by rw [builder_eq]; rfl, by norm_num⟩
    · exact ⟨0, 0, by rw [builder_eq]; rfl, by norm_num⟩
    · exact ⟨5, 1, by rw [builder_eq]; rfl, by norm_num⟩
    · exact ⟨6, 1, by rw [builder_eq]; rfl, by norm_num⟩
  · obtain ⟨id, rfl⟩ : ∃ id, i = 8 + id := ⟨i - 8, by omega⟩
    have hid : id < 100 := by omega
    by_cases h2 : id < 2
    · refine ⟨7, 1, ?_, by omega⟩
      rw [pf_secAt P hid]
      simp [pfSec, h2]
    · refine ⟨8 + (id - 2), 1, ?_, by omega⟩
      rw [pf_secAt P hid]
      simp [pfSec, h2]

/-- Witness for C4 at position (1, 2, 3) and section 9. -/
theorem tree_invariant_witness :
    (0 : ℕ) < 9 ∧ (9 : ℕ) < 108 ∧
      ∃ j e, (secAt (builder (Vec3.mk 1 2 3)) 9).parent = some (j, e) ∧ j < 9 :=
  ⟨by norm_num, by norm_num,
    (tree_invariant (Vec3.mk 1 2 3)).2.2 9 (by norm_num) (by norm_num)⟩

/-! ### Static parameter tables

The four model classes carry static `synapse_types` and `section_types`
tables.  A synapse entry is a point process `(name, variant)` plus
attribute assignments; a section entry is an optional synapse list, a
mechanism list (mechanism name with optional variant tag) and attribute
assignments (attribute name with optional mechanism qualifier).  Python
dicts become association lists in source order; all numeric values are
transcribed verbatim as exact rationals. -/

/-- One synapse-type entry: point process and kinetic attributes. -/
structure SynSpec where
  point_process : String × String
  attributes : List (String × ℚ)
deriving DecidableEq

/-- One section-type entry: optional synapse list, mechanisms and
attributes. -/
structure SecSpec where
  synapses : Option (List String)
  mechanisms : List (String × Option String)
  attributes : List ((String × Option String) × ℚ)
deriving DecidableEq
namespace GranuleCell

/-- The `synapse_types` table of `GranuleCell`. -/
def synapse_types : List (String × SynSpec) := [
  ("AMPA", SynSpec.mk ("AMPA", "granule")
    [("tau_facil", 5),
      ("tau_rec", 8),
      ("tau_1", 1),
      ("gmax", 1400),
      ("U", 0.43)]),
  ("NMDA", SynSpec.mk ("NMDA", "granule")
    [("tau_facil", 5),
      ("tau_rec", 8),
      ("tau_1", 1),
      ("gmax", 23500),
      ("U", 0.43)]),
  ("GABA", SynSpec.mk ("GABA", "granule")
    [("U", 0.35)])]

/-- The `section_types` table of `GranuleCell`. -/
def section_types : List (String × SecSpec) := [
  ("soma", SecSpec.mk none
    [("Leak", none), ("Kv3_4", none), ("Kv4_3", none), ("Kir2_3", none), ("Ca", none), ("Kv1_1", none), ("Kv1_5", none), ("Kv2_2", none), ("cdp5", some "CR")]
    [(("Ra", none), 100),
      (("cm", none), 2),
      (("e", some "Leak"), (-60)),
      (("ek", none), (-88)),
      (("eca", none), 137.5),
      (("gmax", some "Leak"), 0.00029038073716),
      (("gkbar", some "Kv3_4"), 0.00076192450951999995),
      (("gkbar", some "Kv4_3"), 0.0028149683906099998),
      (("gkbar", some "Kir2_3"), 0.00074725514701999996),
      (("gcabar", some "Ca"), 0.00060938071783999998),
      (("gbar", some "Kv1_1"), 0.0056973826455499997),
      (("gKur", some "Kv1_5"), 0.00083407556713999999),
      (("gKv2_2bar", some "Kv2_2"), 1.203410852e-5)]),
  ("dendrites", SecSpec.mk (some ["NMDA", "AMPA", "GABA"])
    [("Leak", none), ("Leak", some "GABA"), ("Ca", none), ("Kca1_1", none), ("Kv1_1", none), ("cdp5", some "CR")]
    [(("Ra", none), 100),
      (("cm", none), 2.5),
      (("e", some "Leak"), (-60)),
      (("ek", none), (-88)),
      (("eca", none), 137.5),
      (("gmax", some "Leak"), 0.00025029700736999997),
      (("gcabar", some "Ca"), 0.0050012800845900002),
      (("gbar", some "Kca1_1"), 0.010018074546510001),
      (("gbar", some "Kv1_1"), 0.00381819207934)]),
  ("axon", SecSpec.mk none
    []
    []),
  ("ascending_axon", SecSpec.mk none
    [("Na", some "granule_cell"), ("Kv3_4", none), ("Leak", none), ("Ca", none), ("cdp5", some "CR")]
    [(("Ra", none), 100),
      (("cm", none), 1),
      (("ena", none), 87.39),
      (("ek", none), (-88)),
      (("e", some "Leak"), (-60)),
      (("eca", none), 137.5),
      (("gnabar", some "Na"), 0.026301636815019999),
      (("gkbar", some "Kv3_4"), 0.00237386061632),
      (("gmax", some "Leak"), 9.3640921249999996e-5),
      (("gcabar", some "Ca"), 0.00068197420273000001)]),
  ("parallel_fiber", SecSpec.mk none
    [("Na", some "granule_cell"), ("Kv3_4", none), ("Leak", none), ("Ca", none), ("cdp5", some "CR")]
    [(("L", none), 20),
      (("diam", none), 0.15),
      (("Ra", none), 100),
      (("cm", none), 1),
      (("ena", none), 87.39),
      (("ek", none), (-88)),
      (("e", some "Leak"), (-60)),
      (("eca", none), 137.5),
      (("gnabar", some "Na"), 0.017718484492610001),
      (("gkbar", some "Kv3_4"), 0.0081756804703699993),
      (("gmax", some "Leak"), 3.5301616000000001e-7),
      (("gcabar", some "Ca"), 0.00020856833529999999)]),
  ("axon_initial_segment", SecSpec.mk none
    [("Na", some "granule_cell_FHF"), ("Kv3_4", none), ("Leak", none), ("Ca", none), ("Km", none), ("cdp5", some "CR")]
    [(("Ra", none), 100),
      (("cm", none), 1),
      (("ena", none), 87.39),
      (("ek", none), (-88)),
      (("eca", none), 137.5),
      (("e", some "Leak"), (-60)),
      (("gnabar", some "Na"), 1.28725006737226),
      (("gkbar", some "Kv3_4"), 0.0064959534065400001),
      (("gmax", some "Leak"), 0.00029276697557000002),
      (("gcabar", some "Ca"), 0.00031198539471999999),
      (("gkbar", some "Km"), 0.00056671971737000002)]),
  ("axon_hillock", SecSpec.mk none
    [("Leak", none), ("Na", some "granule_cell_FHF"), ("Kv3_4", none), ("Ca", none), ("cdp5", some "CR")]
    [(("Ra", none), 100),
      (("cm", none), 2),
      (("e", some "Leak"), (-60)),
      (("ena", none), 87.39),
      (("ek", none), (-88)),
      (("eca", none), 137.5),
      (("gmax", some "Leak"), 0.00036958189720000001),
      (("gnabar", some "Na"), 0.0092880585146199995),
      (("gkbar", some "Kv3_4"), 0.020373463109149999),
      (("gcabar", some "Ca"), 0.00057726155447)])]

end GranuleCell

namespace GranuleCellMildAdapting

/-- The `synapse_types` table of `GranuleCellMildAdapting`. -/
def synapse_types : List (String × SynSpec) := [
  ("AMPA", SynSpec.mk ("AMPA", "granule")
    [("tau_facil", 5),
      ("tau_rec", 8),
      ("tau_1", 1),
      ("gmax", 1400),
      ("U", 0.43)]),
  ("NMDA", SynSpec.mk ("NMDA", "granule")
    [("tau_facil", 5),
      ("tau_rec", 8),
      ("tau_1", 1),
      ("gmax", 23500),
      ("U", 0.43)]),
  ("GABA", SynSpec.mk ("GABA", "granule")
    [("U", 0.35)])]

/-- The `section_types` table of `GranuleCellMildAdapting`. -/
def section_types : List (String × SecSpec) := [
  ("soma", SecSpec.mk none
    [("Leak", none), ("Kv3_4", none), ("Kv4_3", none), ("Kir2_3", none), ("Ca", none), ("Kv1_1", none), ("Kv1_5", none), ("Kv2_2", none), ("cdp5", some "CR")]
    [(("Ra", none), 100),
      (("cm", none), 2),
      (("e", some "Leak"), (-60)),
      (("ek", none), (-88)),
      (("eca", none), 137.5),
      (("gmax", some "Leak"), 0.00020821612897999999),
      (("gkbar", some "Kv3_4"), 0.00053837153610999998),
      (("gkbar", some "Kv4_3"), 0.0032501728450999999),
      (("gkbar", some "Kir2_3"), 0.00080747403035999997),
      (("gcabar", some "Ca"), 0.00066384354030999998),
      (("gbar", some "Kv1_1"), 0.0046520692281700003),
      (("gKur", some "Kv1_5"), 0.00106988075956),
      (("gKv2_2bar", some "Kv2_2"), 2.5949576899999998e-5)]),
  ("dendrites", SecSpec.mk (some ["NMDA", "AMPA", "GABA"])
    [("Leak", none), ("Leak", some "GABA"), ("Ca", none), ("Kca1_1", none), ("Kv1_1", none), ("cdp5", some "CR")]
    [(("Ra", none), 100),
      (("cm", none), 2.5),
      (("e", some "Leak"), (-60)),
      (("ek", none), (-88)),
      (("eca", none), 137.5),
      (("gmax", some "Leak"), 0.00020424219215),
      (("gcabar", some "Ca"), 0.01841833779253),
      (("gbar", some "Kca1_1"), 0.02998872868395),
      (("gbar", some "Kv1_1"), 0.00010675447184)]),
  ("axon", SecSpec.mk none
    []
    []),
  ("ascending_axon", SecSpec.mk none
    [("Na", some "granule_cell"), ("Kv3_4", none), ("Leak", none), ("Ca", none), ("cdp5", some "CR")]
    [(("Ra", none), 100),
      (("cm", none), 1),
      (("ena", none), 87.39),
      (("ek", none), (-88)),
      (("e", some "Leak"), (-60)),
      (("eca", none), 137.5),
      (("gnabar", some "Na"), 0.029973709719629999),
      (("gkbar", some "Kv3_4"), 0.0046029972380800003),
      (("gmax", some "Leak"), 7.8963697590000003e-5),
      (("gcabar", some "Ca"), 0.00059214434259999998)]),
  ("parallel_fiber", SecSpec.mk none
    [("Na", some "granule_cell"), ("Kv3_4", none), ("Leak", none), ("Ca", none), ("cdp5", some "CR")]
    [(("L", none), 20),
      (("diam", none), 0.15),
      (("Ra", none), 100),
      (("cm", none), 1),
      (("ena", none), 87.39),
      (("ek", none), (-88)),
      (("e", some "Leak"), (-60)),
      (("eca", none), 137.5),
      (("gnabar", some "Na"), 0.01896618618573),
      (("gkbar", some "Kv3_4"), 0.0094015060525799998),
      (("gmax", some "Leak"), 4.1272473000000001e-7),
      (("gcabar", some "Ca"), 0.00064742320254000001)]),
  ("axon_initial_segment", SecSpec.mk none
    [("Na", some "granule_cell_FHF"), ("Kv3_4", none), ("Leak", none), ("Ca", none), ("Km", none), ("cdp5", some "CR")]
    [(("Ra", none), 100),
      (("cm", none), 1),
      (("ena", none), 87.39),
      (("ek", none), (-88)),
      (("eca", none), 137.5),
      (("e", some "Leak"), (-60)),
      (("gnabar", some "Na"), 1.06883116205825),
      (("gkbar", some "Kv3_4"), 0.034592458064240002),
      (("gmax", some "Leak"), 0.00025011065810000001),
      (("gcabar", some "Ca"), 0.00011630629281),
      (("gkbar", some "Km"), 0.00044764153078999998)]),
  ("axon_hillock", SecSpec.mk none
    [("Leak", none), ("Na", some "granule_cell_FHF"), ("Kv3_4", none), ("Ca", none), ("cdp5", some "CR")]
    [(("Ra", none), 100),
      (("cm", none), 2),
      (("e", some "Leak"), (-60)),
      (("ena", none), 87.39),
      (("ek", none), (-88)),
      (("eca", none), 137.5),
      (("gmax", some "Leak"), 0.00025295417368000002),
      (("gnabar", some "Na"), 0.011082499796400001),
      (("gkbar", some "Kv3_4"), 0.050732563882920002),
      (("gcabar", some "Ca"), 0.00028797253573000002)])]

end GranuleCellMildAdapting

namespace GranuleCellAdapting

/-- The `synapse_types` table of `GranuleCellAdapting`. -/
def synapse_types : List (String × SynSpec) := [
  ("AMPA", SynSpec.mk ("AMPA", "granule")
    [("tau_facil", 5),
      ("tau_rec", 8),
      ("tau_1", 1),
      ("gmax", 1400),
      ("U", 0.43)]),
  ("NMDA", SynSpec.mk ("NMDA", "granule")
    [("tau_facil", 5),
      ("tau_rec", 8),
      ("tau_1", 1),
      ("gmax", 23500),
      ("U", 0.43)]),
  ("GABA", SynSpec.mk ("GABA", "granule")
    [("U", 0.35)])]

/-- The `section_types` table of `GranuleCellAdapting`. -/
def section_types : List (String × SecSpec) := [
  ("soma", SecSpec.mk none
    [("Leak", none), ("Kv3_4", none), ("Kv4_3", none), ("Kir2_3", none), ("Ca", none), ("Kv1_1", none), ("Kv1_5", none), ("Kv2_2", none), ("cdp5", some "CR")]
    [(("Ra", none), 100),
      (("cm", none), 2),
      (("e", some "Leak"), (-60)),
      (("ek", none), (-88)),
      (("eca", none), 137.5),
      (("gmax", some "Leak"), 0.00027672909671000001),
      (("gkbar", some "Kv3_4"), 0.00373151328841),
      (("gkbar", some "Kv4_3"), 0.0027313162972600002),
      (("gkbar", some "Kir2_3"), 0.00094360184424999995),
      (("gcabar", some "Ca"), 0.00029165028328999998),
      (("gbar", some "Kv1_1"), 0.0031675812802999998),
      (("gKur", some "Kv1_5"), 0.00107176612352),
      (("gKv2_2bar", some "Kv2_2"), 6.710092624e-5)]),
  ("dendrites", SecSpec.mk (some ["NMDA", "AMPA", "GABA"])
    [("Leak", none), ("Leak", some "GABA"), ("Ca", none), ("Kca1_1", none), ("Kv1_1", none), ("cdp5", some "CR")]
    [(("Ra", none), 100),
      (("cm", none), 2.5),
      (("e", some "Leak"), (-60)),
      (("ek", none), (-88)),
      (("eca", none), 137.5),
      (("gmax", some "Leak"), 0.00029871180381000001),
      (("gcabar", some "Ca"), 0.024687091736070001),
      (("gbar", some "Kca1_1"), 0.01185742892862),
      (("gbar", some "Kv1_1"), 0.00015853886699000001)]),
  ("axon", SecSpec.mk none
    []
    []),
  ("ascending_axon", SecSpec.mk none
    [("Na", some "granule_cell"), ("Kv3_4", none), ("Leak", none), ("Ca", none), ("cdp5", some "CR")]
    [(("Ra", none), 100),
      (("cm", none), 1),
      (("ena", none), 87.39),
      (("ek", none), (-88)),
      (("e", some "Leak"), (-60)),
      (("eca", none), 137.5),
      (("gnabar", some "Na"), 0.025441894508310001),
      (("gkbar", some "Kv3_4"), 0.0046504514953399998),
      (("gmax", some "Leak"), 5.3037170669999997e-5),
      (("gcabar", some "Ca"), 0.00031374692347000001)]),
  ("parallel_fiber", SecSpec.mk none
    [("Na", some "granule_cell"), ("Kv3_4", none), ("Leak", none), ("Ca", none), ("cdp5", some "CR")]
    [(("L", none), 20),
      (("diam", none), 0.15),
      (("Ra", none), 100),
      (("cm", none), 1),
      (("ena", none), 87.39),
      (("ek", none), (-88)),
      (("e", some "Leak"), (-60)),
      (("eca", none), 137.5),
      (("gnabar", some "Na"), 0.0142518259615),
      (("gkbar", some "Kv3_4"), 0.0098649550733799999),
      (("gmax", some "Leak"), 1.4118927999999999e-7),
      (("gcabar", some "Ca"), 0.00024821458382999999)]),
  ("axon_initial_segment", SecSpec.mk none
    [("Na", some "granule_cell_FHF"), ("Kv3_4", none), ("Leak", none), ("Ca", none), ("Km", none), ("cdp5", some "CR")]
    [(("Ra", none), 100),
      (("cm", none), 1),
      (("ena", none), 87.39),
      (("ek", none), (-88)),
      (("eca", none), 137.5),
      (("e", some "Leak"), (-60)),
      (("gnabar", some "Na"), 1.5810107836409499),
      (("gkbar", some "Kv3_4"), 0.039582385081389997),
      (("gmax", some "Leak"), 0.00025512657995000002),
      (("gcabar", some "Ca"), 0.00038160760886000002),
      (("gkbar", some "Km"), 0.00049717923887)]),
  ("axon_hillock", SecSpec.mk none
    [("Leak", none), ("Na", some "granule_cell_FHF"), ("Kv3_4", none), ("Ca", none), ("cdp5", some "CR")]
    [(("Ra", none), 100),
      (("cm", none), 2),
      (("e", some "Leak"), (-60)),
      (("ena", none), 87.39),
      (("ek", none), (-88)),
      (("eca", none), 137.5),
      (("gmax", some "Leak"), 0.00031475453130000002),
      (("gnabar", some "Na"), 0.020910983616370001),
      (("gkbar", some "Kv3_4"), 0.03097630887484),
      (("gcabar", some "Ca"), 0.00019803691988000001)])]

end GranuleCellAdapting

namespace GranuleCellAccelerate

/-- The `synapse_types` table of `GranuleCellAccelerate`. -/
def synapse_types : List (String × SynSpec) := [
  ("AMPA", SynSpec.mk ("AMPA", "granule")
    [("tau_facil", 5),
      ("tau_rec", 8),
      ("tau_1", 1),
      ("gmax", 1400),
      ("U", 0.43)]),
  ("NMDA", SynSpec.mk ("NMDA", "granule")
    [("tau_facil", 5),
      ("tau_rec", 8),
      ("tau_1", 1),
      ("gmax", 23500),
      ("U", 0.43)]),
  ("GABA", SynSpec.mk ("GABA", "granule")
    [("U", 0.35)])]

/-- The `section_types` table of `GranuleCellAccelerate`. -/
def section_types : List (String × SecSpec) := [
  ("soma", SecSpec.mk none
    [("Leak", none), ("Kv3_4", none), ("Kv4_3", none), ("Kir2_3", none), ("Ca", none), ("Kv1_1", none), ("Kv1_5", none), ("Kv2_2", none), ("cdp5", some "CAM")]
    [(("Ra", none), 100),
      (("cm", none), 2),
      (("e", some "Leak"), (-60)),
      (("ek", none), (-88)),
      (("eca", none), 137.5),
      (("gmax", some "Leak"), 0.00029038073716),
      (("gkbar", some "Kv3_4"), 0.00076192450951999995),
      (("gkbar", some "Kv4_3"), 0.0028149683906099998),
      (("gkbar", some "Kir2_3"), 0.00074725514701999996),
      (("gcabar", some "Ca"), 0.00060938071783999998),
      (("gbar", some "Kv1_1"), 0.0056973826455499997),
      (("gKur", some "Kv1_5"), 0.00083407556713999999),
      (("gKv2_2bar", some "Kv2_2"), 1.203410852e-5)]),
  ("dendrites", SecSpec.mk (some ["NMDA", "AMPA", "GABA"])
    [("Leak", none), ("Leak", some "GABA"), ("Ca", none), ("Kca1_1", none), ("Kv1_1", none), ("cdp5", some "CAM")]
    [(("Ra", none), 100),
      (("cm", none), 2.5),
      (("e", some "Leak"), (-60)),
      (("ek", none), (-88)),
      (("eca", none), 137.5),
      (("gmax", some "Leak"), 0.00025029700736999997),
      (("gcabar", some "Ca"), 0.0050012800845900002),
      (("gbar", some "Kca1_1"), 0.010018074546510001),
      (("gbar", some "Kv1_1"), 0.00381819207934)]),
  ("axon", SecSpec.mk none
    []
    []),
  ("ascending_axon", SecSpec.mk none
    [("Na", some "granule_cell"), ("Kv3_4", none), ("Leak", none), ("Ca", none), ("cdp5", some "CAM")]
    [(("Ra", none), 100),
      (("cm", none), 1),
      (("ena", none), 87.39),
      (("ek", none), (-88)),
      (("e", some "Leak"), (-60)),
      (("eca", none), 137.5),
      (("gnabar", some "Na"), 0.026301636815019999),
      (("gkbar", some "Kv3_4"), 0.00237386061632),
      (("gmax", some "Leak"), 9.3640921249999996e-5),
      (("gcabar", some "Ca"), 0.00068197420273000001)]),
  ("parallel_fiber", SecSpec.mk none
    [("Na", some "granule_cell"), ("Kv3_4", none), ("Leak", none), ("Ca", none), ("cdp5", some "CAM")]
    [(("L", none), 20),
      (("diam", none), 0.15),
      (("Ra", none), 100),
      (("cm", none), 1),
      (("ena", none), 87.39),
      (("ek", none), (-88)),
      (("e", some "Leak"), (-60)),
      (("eca", none), 137.5),
      (("gnabar", some "Na"), 0.017718484492610001),
      (("gkbar", some "Kv3_4"), 0.0081756804703699993),
      (("gmax", some "Leak"), 3.5301616000000001e-7),
      (("gcabar", some "Ca"), 0.00020856833529999999)]),
  ("axon_initial_segment", SecSpec.mk none
    [("Na", some "granule_cell_FHF"), ("Kv3_4", none), ("Leak", none), ("Ca", none), ("Km", none), ("cdp5", some "CAM")]
    [(("Ra", none), 100),
      (("cm", none), 1),
      (("ena", none), 87.39),
      (("ek", none), (-88)),
      (("eca", none), 137.5),
      (("e", some "Leak"), (-60)),
      (("gnabar", some "Na"), 1.28725006737226),
      (("gkbar", some "Kv3_4"), 0.0064959534065400001),
      (("gmax", some "Leak"), 0.00029276697557000002),
      (("gcabar", some "Ca"), 0.00031198539471999999),
      (("gkbar", some "Km"), 0.00056671971737000002)]),
  ("axon_hillock", SecSpec.mk none
    [("Leak", none), ("Na", some "granule_cell_FHF"), ("Kv3_4", none), ("Ca", none), ("cdp5", some "CAM")]
    [(("Ra", none), 100),
      (("cm", none), 2),
      (("e", some "Leak"), (-60)),
      (("ena", none), 87.39),
      (("ek", none), (-88)),
      (("eca", none), 137.5),
      (("gmax", some "Leak"), 0.00036958189720000001),
      (("gnabar", some "Na"), 0.0092880585146199995),
      (("gkbar", some "Kv3_4"), 0.020373463109149999),
      (("gcabar", some "Ca"), 0.00057726155447)])]

end GranuleCellAccelerate


/-- The structural shape of a section entry: the synapse list, the
mechanism list with the `cdp5` variant tag erased, and the attribute
keys (numeric values dropped). -/
def secShape (s : SecSpec) :
    Option (List String) × List (String × Option String) × List (String × Option String) :=
  (s.synapses,
   s.mechanisms.map (fun mv => (mv.1, if mv.1 = "cdp5" then none else mv.2)),
   s.attributes.map (fun a => a.1))

/-- The structural shape of a whole `section_types` table. -/
def tableShape (t : List (String × SecSpec)) :
    List (String × (Option (List String) × List (String × Option String) ×
      List (String × Option String))) :=
  t.map (fun e => (e.1, secShape e.2))

/-- All `cdp5` variant tags occurring in a `section_types` table, in
table order. -/
def cdp5Tags (t : List (String × SecSpec)) : List (Option String) :=
  t.flatMap (fun e => e.2.mechanisms.filterMap
    (fun mv => if mv.1 = "cdp5" then some mv.2 else none))

/-- C9: the four model classes have identical synapse tables and
structurally identical section tables (same roles, same mechanism lists
up to the cdp5 variant tag, same attribute keys); the cdp5 tag is "CR"
in each of the six mechanism-bearing roles of the first three classes
and "CAM" in those of `GranuleCellAccelerate`. -/
theorem table_structure_spec :
    GranuleCell.synapse_types = GranuleCellMildAdapting.synapse_types ∧
    GranuleCell.synapse_types = GranuleCellAdapting.synapse_types ∧
    GranuleCell.synapse_types = GranuleCellAccelerate.synapse_types ∧
    tableShape GranuleCell.section_types = tableShape GranuleCellMildAdapting.section_types ∧
    tableShape GranuleCell.section_types = tableShape GranuleCellAdapting.section_types ∧
    tableShape GranuleCell.section_types = tableShape GranuleCellAccelerate.section_types ∧
    cdp5Tags GranuleCell.section_types = List.replicate 6 (some "CR") ∧
    cdp5Tags GranuleCellMildAdapting.section_types = List.replicate 6 (some "CR") ∧
    cdp5Tags GranuleCellAdapting.section_types = List.replicate 6 (some "CR") ∧
    cdp5Tags GranuleCellAccelerate.section_types = List.replicate 6 (some "CAM") := by
  exact ⟨rfl, rfl, rfl, rfl, rfl, rfl, rfl, rfl, rfl, rfl⟩
